import Mathlib

/-!
Shallow embedding of the tipjar-dapp repository: the on-chain `TipJar`
contract (`contracts/TipJar.sol`), the wallet session hook
(`src/hooks/useWallet.ts`), the tip submission flow
(`src/components/TipForm.tsx`) and the withdrawal flow
(`src/components/WithdrawButton.tsx`).

Asynchronous wallet / network interactions are modelled as explicit
oracles (`Except`-valued fields of a chain record): an `Except.error`
models a thrown promise rejection, which the surrounding `try`/`catch`
of the source handles.  Each handler is a total function from its
environment, its oracle and its local state to a result record that
collects the observable effects: the final inline error string, the
final input-field values, whether the signer was requested, the hash of
a submitted transaction (if any), whether the session balance was
refreshed, and the ordered list of callback emissions.
-/

/-- JavaScript `String.prototype.toLowerCase`, restricted to the ASCII
range actually occurring in hex addresses. -/
def jsToLower (s : String) : String := String.map Char.toLower s

/-- JavaScript string truthiness of an optional string: `null`,
`undefined` and `""` are falsy; every other string is truthy. -/
def strTruthy (s : Option String) : Bool := s.getD "" != ""

/-- Longest prefix of decimal digits, and the rest. -/
def takeDigits : List Char → List Char × List Char
  | [] => ([], [])
  | c :: cs =>
    if c.isDigit then
      let r := takeDigits cs
      (c :: r.1, r.2)
    else ([], c :: cs)

/-- Value of a list of decimal digits, most significant first. -/
def digitsToNat (ds : List Char) : Nat :=
  ds.foldl (fun a c => 10 * a + (c.toNat - 48)) 0

/-- Parsed shape of a number literal as recognized by JavaScript
`parseFloat`: sign, decimal mantissa (integer and fraction digits
combined), and a base-ten exponent (the written exponent minus the
number of fraction digits).  The represented value is
`±mantissa * 10 ^ exponent`. -/
structure JsNumParts where
  neg : Bool
  mantissa : Nat
  exponent : Int
deriving DecidableEq

/-- Exact value of a parsed number, which agrees with the IEEE double
on sign and zeroness — the only facts the flows consume. -/
def JsNumParts.val (p : JsNumParts) : Rat :=
  (if p.neg then -1 else 1) * (p.mantissa : Rat) * (10 : Rat) ^ p.exponent

/-- JavaScript `parseFloat`, as a parser: skip leading whitespace,
parse an optional sign, a decimal significand and an optional exponent,
over the longest valid prefix; `none` models `NaN` (no parsable prefix
at all).  The `Infinity` literal is not modelled; no claim depends on
it. -/
def jsParseFloatParts (s : String) : Option JsNumParts :=
  let cs := s.data.dropWhile (fun c => c == ' ' || c == '\t' || c == '\n' || c == '\r')
  let sgn : Bool × List Char :=
    match cs with
    | '-' :: r => (true, r)
    | '+' :: r => (false, r)
    | r => (false, r)
  let ipRest := takeDigits sgn.2
  let fpRest : List Char × List Char :=
    match ipRest.2 with
    | '.' :: r => takeDigits r
    | r => ([], r)
  if ipRest.1.isEmpty && fpRest.1.isEmpty then none
  else
    let mant := digitsToNat ipRest.1 * 10 ^ fpRest.1.length + digitsToNat fpRest.1
    let writtenExp : Int :=
      match fpRest.2 with
      | 'e' :: r | 'E' :: r =>
        let esgn : Bool × List Char :=
          match r with
          | '-' :: r2 => (true, r2)
          | '+' :: r2 => (false, r2)
          | r2 => (false, r2)
        let ed := (takeDigits esgn.2).1
        if ed.isEmpty then 0
        else if esgn.1 then -(digitsToNat ed : Int) else (digitsToNat ed : Int)
      | _ => 0
    some ⟨sgn.1, mant, writtenExp - fpRest.1.length⟩

/-- JavaScript `parseFloat` as a value: `none` models `NaN`. -/
def jsParseFloat (s : String) : Option Rat :=
  (jsParseFloatParts s).map JsNumParts.val

/-- The comparison `parsed <= 0` computed on the parsed shape: a finite
decimal is `≤ 0` exactly when its sign is negative or its mantissa is
zero (`JsNumParts.leZero_iff` proves the agreement with the value). -/
def JsNumParts.leZero (p : JsNumParts) : Bool := p.neg || p.mantissa == 0

/-- The tip form's amount guard `!amount || parseFloat(amount) <= 0`.
`NaN <= 0` is `false` in JavaScript, so a non-numeric string is NOT
rejected by this guard. -/
def amountGuardRejects (amount : String) : Bool :=
  amount == "" ||
    (match jsParseFloatParts amount with
     | some p => p.leZero
     | none => false)

/-- `ethers.parseEther`: a strict decimal string (optional sign, digits,
optional fraction of at most 18 digits, nothing else) converted to wei;
`none` models the thrown invalid-value error. -/
def parseEtherWei (s : String) : Option Int :=
  let sgn : Bool × List Char :=
    match s.data with
    | '-' :: r => (true, r)
    | r => (false, r)
  let ipRest := takeDigits sgn.2
  let fpRest : List Char × List Char :=
    match ipRest.2 with
    | '.' :: r => takeDigits r
    | r => ([], r)
  if fpRest.2.isEmpty && (!ipRest.1.isEmpty || !fpRest.1.isEmpty)
      && decide (fpRest.1.length ≤ 18) then
    let wei : Nat :=
      digitsToNat ipRest.1 * 10 ^ 18 + digitsToNat fpRest.1 * 10 ^ (18 - fpRest.1.length)
    some (if sgn.1 then -(wei : Int) else (wei : Int))
  else none

/-- Digits of a fractional wei remainder with trailing zeros removed. -/
def dropTrailingZeros (l : List Char) : List Char :=
  (l.reverse.dropWhile (fun c => c == '0')).reverse

/-- Left-pad a digit list with zeros to length `n`. -/
def padLeftZeros (l : List Char) (n : Nat) : List Char :=
  List.replicate (n - l.length) '0' ++ l

/-- `ethers.formatEther`: wei to a decimal ETH string, always carrying a
fractional part (`formatEther 0 = "0.0"`). -/
def formatEther (wei : Nat) : String :=
  let frac := dropTrailingZeros (padLeftZeros (Nat.toDigits 10 (wei % 10 ^ 18)) 18)
  toString (wei / 10 ^ 18) ++ "." ++ (if frac.isEmpty then "0" else String.mk frac)

/-! ## The on-chain `TipJar` contract (`contracts/TipJar.sol`)

Addresses are modelled as natural numbers (160-bit values on chain);
the contract state is the stored owner plus the contract's ETH balance.
A reverted call is an `Except.error` carrying the revert reason. -/

/-- Contract-side state: stored owner and accumulated balance. -/
structure Ledger where
  owner : Nat
  balance : Nat
deriving DecidableEq

/-- The `TipReceived(from, amount, message)` event. -/
structure TipReceived where
  sender : Nat
  amount : Nat
  message : String
deriving DecidableEq

/-- `function tip(string calldata message) external payable`:
`require(msg.value > 0, "Tip must be greater than 0")`, then the attached
value joins the balance and `TipReceived` is emitted. -/
def TipJar.tip (sender : Nat) (value : Nat) (m : String) (st : Ledger) :
    Except String (Ledger × TipReceived) :=
  if value > 0 then
    .ok ({ st with balance := st.balance + value },
         { sender := sender, amount := value, message := m })
  else .error "Tip must be greater than 0"

/-- `function withdraw() external`:
`require(msg.sender == owner, "Only owner can withdraw")`, then
`payable(owner).transfer(address(this).balance)` sweeps the whole
balance to the owner.  On success the pair is the new state together
with the transferred amount. -/
def TipJar.withdraw (caller : Nat) (st : Ledger) : Except String (Ledger × Nat) :=
  if caller = st.owner then .ok ({ st with balance := 0 }, st.balance)
  else .error "Only owner can withdraw"

/-- Revert semantics of `withdraw`: a reverted call leaves the ledger
unchanged and transfers nothing. -/
def TipJar.withdrawStep (caller : Nat) (st : Ledger) : Ledger × Option Nat :=
  match TipJar.withdraw caller st with
  | .ok (st2, v) => (st2, some v)
  | .error _ => (st, none)

/-! ## Wallet session hook (`src/hooks/useWallet.ts`) -/

/-- The hook's `walletState`. -/
structure WalletState where
  address : Option String
  isConnected : Bool
  balance : String
  isLoading : Bool
deriving DecidableEq

/-- Hook environment: the client-side flag and presence of
`window.ethereum`. -/
structure WalletEnv where
  isClient : Bool
  hasEthereum : Bool
deriving DecidableEq

/-- Read-only chain oracle used by the hook: the silent `eth_accounts`
query and `provider.getBalance` (wei); `Except.error` models a thrown
rejection. -/
structure ChainReads where
  ethAccounts : Except String (List String)
  getBalance : String → Except String Nat

/-- `checkIfWalletIsConnected`: silent check; adopts the first
authorized account and its formatted balance, no-ops when the adapter is
missing, the account list is empty, or a query throws (caught and
logged). -/
def checkIfWalletIsConnected (env : WalletEnv) (chain : ChainReads)
    (st : WalletState) : WalletState :=
  if !env.isClient || !env.hasEthereum then st
  else
    match chain.ethAccounts with
    | .error _ => st
    | .ok [] => st
    | .ok (a :: _) =>
      match chain.getBalance a with
      | .error _ => st
      | .ok b =>
        { address := some a, isConnected := true,
          balance := formatEther b, isLoading := false }

/-- `disconnectWallet`: purely local reset to the disconnected shape. -/
def disconnectWallet : WalletState :=
  { address := none, isConnected := false, balance := "0", isLoading := false }

/-- The `accountsChanged` listener: an empty account list runs
`disconnectWallet()`, a non-empty one re-runs
`checkIfWalletIsConnected()`. -/
def onAccountsChanged (env : WalletEnv) (chain : ChainReads)
    (accounts : List String) (st : WalletState) : WalletState :=
  match accounts with
  | [] => disconnectWallet
  | _ :: _ => checkIfWalletIsConnected env chain st

/-- `updateBalance`: with a held address and an available adapter,
re-query the balance and update only the `balance` field; otherwise, or
when the query throws (caught and logged), leave the state unchanged. -/
def updateBalance (env : WalletEnv) (chain : ChainReads)
    (st : WalletState) : WalletState :=
  if !env.isClient then st
  else
    match st.address with
    | none => st
    | some a =>
      if !env.hasEthereum then st
      else
        match chain.getBalance a with
        | .error _ => st
        | .ok b => { st with balance := formatEther b }

/-! ## Withdrawal flow (`src/components/WithdrawButton.tsx`) -/

/-- Environment of `WithdrawButton`: hook state plus the two configured
addresses and the presence of `window.ethereum`. -/
structure WithdrawEnv where
  isConnected : Bool
  address : Option String
  contractAddress : Option String
  contractOwner : Option String
  hasEthereum : Bool
deriving DecidableEq

/-- `isOwner = isConnected && address && contractOwner &&
address.toLowerCase() === contractOwner.toLowerCase()`. -/
def isOwner (env : WithdrawEnv) : Bool :=
  env.isConnected && strTruthy env.address && strTruthy env.contractOwner &&
    (jsToLower (env.address.getD "") == jsToLower (env.contractOwner.getD ""))

/-- Oracle for the withdrawal handler's awaited steps, in source order:
`provider.getSigner()`, `provider.getBalance(contractAddress)` (wei),
`signer.sendTransaction(...)` returning the transaction hash, and
`tx.wait()`. -/
structure WithdrawChain where
  getSigner : Except String Unit
  contractBalance : Except String Nat
  sendTx : Except String String
  waitTx : Except String Unit

/-- Observable outcome of one `handleWithdraw` invocation. -/
structure WithdrawResult where
  error : Option String
  signerRequested : Bool
  txSubmitted : Option String
  balanceRefreshed : Bool
  onWithdrawCalls : List (Bool × Option String)
deriving DecidableEq

/-- `handleWithdraw`: connection guard, then the `isOwner` re-check,
then the try-block — signer, contract-balance read, the zero-balance
early return, the raw `withdraw()`-selector transaction, confirmation
wait, balance refresh and the `onWithdraw(true, tx.hash)` callback; any
thrown step lands in the catch, which records the message and calls
`onWithdraw(false)`. -/
def handleWithdraw (env : WithdrawEnv) (chain : WithdrawChain) : WithdrawResult :=
  if !env.isConnected || !strTruthy env.contractAddress || !env.hasEthereum then
    { error := some "Please connect your wallet first", signerRequested := false,
      txSubmitted := none, balanceRefreshed := false, onWithdrawCalls := [] }
  else if !isOwner env then
    { error := some "Only the contract owner can withdraw funds", signerRequested := false,
      txSubmitted := none, balanceRefreshed := false, onWithdrawCalls := [] }
  else
    match chain.getSigner with
    | .error e =>
      { error := some e, signerRequested := true, txSubmitted := none,
        balanceRefreshed := false, onWithdrawCalls := [(false, none)] }
    | .ok _ =>
      match chain.contractBalance with
      | .error e =>
        { error := some e, signerRequested := true, txSubmitted := none,
          balanceRefreshed := false, onWithdrawCalls := [(false, none)] }
      | .ok bal =>
        if bal = 0 then
          { error := some "No funds available to withdraw", signerRequested := true,
            txSubmitted := none, balanceRefreshed := false, onWithdrawCalls := [] }
        else
          match chain.sendTx with
          | .error e =>
            { error := some e, signerRequested := true, txSubmitted := none,
              balanceRefreshed := false, onWithdrawCalls := [(false, none)] }
          | .ok h =>
            match chain.waitTx with
            | .error e =>
              { error := some e, signerRequested := true, txSubmitted := some h,
                balanceRefreshed := false, onWithdrawCalls := [(false, none)] }
            | .ok _ =>
              { error := none, signerRequested := true, txSubmitted := some h,
                balanceRefreshed := true, onWithdrawCalls := [(true, some h)] }

/-! ## Tip submission flow (`src/components/TipForm.tsx`) -/

/-- Status of an emitted `TipTransaction` record. -/
inductive TxStatus
  | pending
  | success
  | error
deriving DecidableEq

/-- The `TipTransaction` records handed to `onTipSent`. -/
structure TipTransaction where
  amount : String
  message : String
  hash : Option String
  status : TxStatus
deriving DecidableEq

/-- Environment of `TipForm`. -/
structure TipEnv where
  isConnected : Bool
  contractAddress : Option String
  hasEthereum : Bool
deriving DecidableEq

/-- Oracle for the tip handler's awaited steps, in source order:
`provider.getSigner()`, `signer.sendTransaction(...)` returning the
hash, and `tx.wait()`. -/
structure TipChain where
  getSigner : Except String Unit
  sendTx : Except String String
  waitTx : Except String Unit

/-- Observable outcome of one `handleSubmit` invocation: final inline
error, final values of the two input fields, effect flags and the
ordered `onTipSent` emissions. -/
structure TipResult where
  error : Option String
  amount : String
  message : String
  signerRequested : Bool
  txSubmitted : Option String
  balanceRefreshed : Bool
  events : List TipTransaction
deriving DecidableEq

/-- `handleSubmit`: connection guard, the amount guard, then the
try-block — signer, transaction construction (`ethers.parseEther` may
throw), submission, the `pending` emission carrying the hash, the
confirmation wait, balance refresh, field reset and the `success`
emission; any thrown step lands in the catch, which records the message
and emits an `error` record built from the untouched field values. -/
def handleSubmit (env : TipEnv) (amount message : String) (chain : TipChain) : TipResult :=
  if !env.isConnected || !strTruthy env.contractAddress || !env.hasEthereum then
    { error := some "Please connect your wallet first", amount := amount, message := message,
      signerRequested := false, txSubmitted := none, balanceRefreshed := false, events := [] }
  else if amountGuardRejects amount then
    { error := some "Please enter a valid tip amount", amount := amount, message := message,
      signerRequested := false, txSubmitted := none, balanceRefreshed := false, events := [] }
  else
    match chain.getSigner with
    | .error e =>
      { error := some e, amount := amount, message := message, signerRequested := true,
        txSubmitted := none, balanceRefreshed := false,
        events := [{ amount := amount, message := message, hash := none, status := .error }] }
    | .ok _ =>
      match parseEtherWei amount with
      | none =>
        { error := some "invalid decimal value", amount := amount, message := message,
          signerRequested := true, txSubmitted := none, balanceRefreshed := false,
          events := [{ amount := amount, message := message, hash := none, status := .error }] }
      | some _ =>
        match chain.sendTx with
        | .error e =>
          { error := some e, amount := amount, message := message, signerRequested := true,
            txSubmitted := none, balanceRefreshed := false,
            events := [{ amount := amount, message := message, hash := none, status := .error }] }
        | .ok h =>
          match chain.waitTx with
          | .error e =>
            { error := some e, amount := amount, message := message, signerRequested := true,
              txSubmitted := some h, balanceRefreshed := false,
              events :=
                [{ amount := amount, message := message, hash := some h, status := .pending },
                 { amount := amount, message := message, hash := none, status := .error }] }
          | .ok _ =>
            { error := none, amount := "", message := "", signerRequested := true,
              txSubmitted := some h, balanceRefreshed := true,
              events :=
                [{ amount := amount, message := message, hash := some h, status := .pending },
                 { amount := amount, message := message, hash := some h, status := .success }] }

/-! ## Helper lemmas -/

/-- The sign/zero test on a parsed number agrees with `≤ 0` on its exact
value. -/
theorem JsNumParts.leZero_iff (p : JsNumParts) : p.leZero = true ↔ p.val ≤ 0 := by
  obtain ⟨neg, m, ex⟩ := p
  have hpow : (0 : Rat) < (10 : Rat) ^ ex := zpow_pos (by norm_num) ex
  have hm : (0 : Rat) ≤ (m : Rat) := Nat.cast_nonneg m
  cases neg with
  | false =>
    simp only [JsNumParts.leZero, JsNumParts.val, Bool.false_or, beq_iff_eq]
    norm_num
    constructor
    · intro h
      simp [h]
    · intro h
      by_contra hne
      have hmpos : (0 : Rat) < (m : Rat) := by
        exact_mod_cast Nat.pos_of_ne_zero hne
      nlinarith
  | true =>
    simp only [JsNumParts.leZero, JsNumParts.val, Bool.true_or, true_iff]
    norm_num
    nlinarith

/-- The amount guard fires exactly on the empty string and on strings
whose parsed value is at most zero. -/
theorem amountGuardRejects_iff (a : String) :
    amountGuardRejects a = true ↔ a = "" ∨ ∃ q, jsParseFloat a = some q ∧ q ≤ 0 := by
  unfold amountGuardRejects jsParseFloat
  cases h : jsParseFloatParts a with
  | none => simp
  | some p => simp [JsNumParts.leZero_iff]

/-! ## Claims about the `TipJar` contract -/

/-- C4: `tip` fails exactly when the attached value is zero; any
strictly positive value is accepted, the balance grows by exactly that
value, and a `TipReceived {sender, amount, message}` record is
emitted. -/
theorem tipjar_tip_spec (s v : Nat) (m : String) (st : Ledger) :
    (v = 0 → TipJar.tip s v m st = .error "Tip must be greater than 0") ∧
    (0 < v → TipJar.tip s v m st =
      .ok ({ owner := st.owner, balance := st.balance + v },
           { sender := s, amount := v, message := m })) := by
  constructor
  · intro h
    simp [TipJar.tip, h]
  · intro h
    simp [TipJar.tip, h]

/-- Witness for `tipjar_tip_spec` at value 0 (rejected) and value 2
(accepted, balance 5 becomes 7). -/
theorem tipjar_tip_spec_witness :
    TipJar.tip 7 0 "hi" { owner := 3, balance := 5 } = .error "Tip must be greater than 0" ∧
    TipJar.tip 7 2 "hi" { owner := 3, balance := 5 } =
      .ok ({ owner := 3, balance := 7 }, { sender := 7, amount := 2, message := "hi" }) :=
  ⟨(tipjar_tip_spec 7 0 "hi" { owner := 3, balance := 5 }).1 rfl,
   (tipjar_tip_spec 7 2 "hi" { owner := 3, balance := 5 }).2 (by decide)⟩

/-- C3: `withdraw` reverts for every non-owner caller, leaving the
ledger unchanged and transferring nothing; called by the owner it
transfers the entire balance and zeroes the ledger; depositing `v > 0`
into an empty ledger and then withdrawing as owner leaves balance 0 and
transfers exactly `v`. -/
theorem tipjar_withdraw_spec (c : Nat) (st : Ledger) (s v : Nat) (m : String)
    (st0 : Ledger) (h0 : st0.balance = 0) (hv : 0 < v) :
    (c ≠ st.owner → TipJar.withdrawStep c st = (st, none)) ∧
    (TipJar.withdrawStep st.owner st =
      ({ owner := st.owner, balance := 0 }, some st.balance)) ∧
    (∃ st1 ev, TipJar.tip s v m st0 = .ok (st1, ev) ∧
      TipJar.withdrawStep st0.owner st1 =
        ({ owner := st0.owner, balance := 0 }, some v)) := by
  refine ⟨?_, ?_, ?_⟩
  · intro h
    simp [TipJar.withdrawStep, TipJar.withdraw, h]
  · simp [TipJar.withdrawStep, TipJar.withdraw]
  · refine ⟨{ owner := st0.owner, balance := st0.balance + v },
      { sender := s, amount := v, message := m }, ?_, ?_⟩
    · simp [TipJar.tip, hv]
    · simp [TipJar.withdrawStep, TipJar.withdraw, h0]

/-- Witness for `tipjar_withdraw_spec`: non-owner 1 is refused on a
ledger owned by 2 holding 9; owner 2 sweeps the 9; depositing 4 into an
empty ledger and withdrawing as owner yields balance 0 and transfers
4. -/
theorem tipjar_withdraw_spec_witness :
    ((1 : Nat) ≠ 2 → TipJar.withdrawStep 1 { owner := 2, balance := 9 } =
        ({ owner := 2, balance := 9 }, none)) ∧
    (TipJar.withdrawStep 2 { owner := 2, balance := 9 } =
        ({ owner := 2, balance := 0 }, some 9)) ∧
    (∃ st1 ev, TipJar.tip 5 4 "gm" { owner := 2, balance := 0 } = .ok (st1, ev) ∧
      TipJar.withdrawStep 2 st1 = ({ owner := 2, balance := 0 }, some 4)) :=
  tipjar_withdraw_spec 1 { owner := 2, balance := 9 } 5 4 "gm"
    { owner := 2, balance := 0 } rfl (by decide)

/-! ## Claims about the wallet session hook -/

/-- C8: an `accountsChanged` event with an empty account list runs the
disconnect operation, whose result is exactly the disconnected shape
`{address := none, isConnected := false, balance := "0",
isLoading := false}`; a non-empty list re-runs the silent connection
check instead. -/
theorem accountsChanged_empty_disconnects (env : WalletEnv) (chain : ChainReads)
    (st : WalletState) (a : String) (rest : List String) :
    onAccountsChanged env chain [] st = disconnectWallet ∧
    disconnectWallet =
      { address := none, isConnected := false, balance := "0", isLoading := false } ∧
    onAccountsChanged env chain (a :: rest) st = checkIfWalletIsConnected env chain st :=
  ⟨rfl, rfl, rfl⟩

/-- C9: with an address held and the adapter available, `updateBalance`
changes only the `balance` field; an adapter failure, or the absence of
a held address, leaves the whole state unchanged (and the handler never
throws — it is a total function). -/
theorem updateBalance_frame (chain : ChainReads) (st : WalletState) (a : String) (b : Nat)
    (ha : st.address = some a) :
    (chain.getBalance a = .ok b →
      updateBalance { isClient := true, hasEthereum := true } chain st =
        { address := st.address, isConnected := st.isConnected,
          balance := formatEther b, isLoading := st.isLoading }) ∧
    (∀ e, chain.getBalance a = .error e →
      updateBalance { isClient := true, hasEthereum := true } chain st = st) ∧
    (∀ (env2 : WalletEnv) (chain2 : ChainReads) (st2 : WalletState),
      st2.address = none → updateBalance env2 chain2 st2 = st2) := by
  refine ⟨?_, ?_, ?_⟩
  · intro h
    simp [updateBalance, ha, h]
  · intro e h
    simp [updateBalance, ha, h]
  · intro env2 chain2 st2 h2
    obtain ⟨ic, he⟩ := env2
    cases ic <;> simp [updateBalance, h2]

/-- Witness for `updateBalance_frame` on a connected session at address
`"0xa"` with a 5-wei oracle. -/
theorem updateBalance_frame_witness :
    (ChainReads.getBalance
        { ethAccounts := .ok [], getBalance := fun _ => .ok 5 } "0xa" = .ok 5 →
      updateBalance { isClient := true, hasEthereum := true }
          { ethAccounts := .ok [], getBalance := fun _ => .ok 5 }
          { address := some "0xa", isConnected := true, balance := "0.0", isLoading := false } =
        { address := some "0xa", isConnected := true,
          balance := formatEther 5, isLoading := false }) ∧
    (∀ e, ChainReads.getBalance
        { ethAccounts := .ok [], getBalance := fun _ => .ok 5 } "0xa" = .error e →
      updateBalance { isClient := true, hasEthereum := true }
          { ethAccounts := .ok [], getBalance := fun _ => .ok 5 }
          { address := some "0xa", isConnected := true, balance := "0.0", isLoading := false } =
        { address := some "0xa", isConnected := true, balance := "0.0", isLoading := false }) ∧
    (∀ (env2 : WalletEnv) (chain2 : ChainReads) (st2 : WalletState),
      st2.address = none → updateBalance env2 chain2 st2 = st2) :=
  updateBalance_frame { ethAccounts := .ok [], getBalance := fun _ => .ok 5 }
    { address := some "0xa", isConnected := true, balance := "0.0", isLoading := false }
    "0xa" 5 rfl

/-! ## Claims about the withdrawal flow -/

/-- C1: for a connected session at address `x`, with the contract
address and owner address configured, `isOwner` holds exactly when `x`
case-insensitively equals the configured owner; and whenever the
handler is invoked while `isOwner` is false, it records the
authorization error and performs no chain interaction at all — no
signer request, no transaction, no callback. -/
theorem withdrawButton_owner_gate (x o ca : String) (hx : x ≠ "") (ho : o ≠ "")
    (hca : ca ≠ "") (chain : WithdrawChain) :
    (isOwner { isConnected := true, address := some x, contractAddress := some ca,
               contractOwner := some o, hasEthereum := true } = true ↔
      jsToLower x = jsToLower o) ∧
    (isOwner { isConnected := true, address := some x, contractAddress := some ca,
               contractOwner := some o, hasEthereum := true } = false →
      handleWithdraw { isConnected := true, address := some x, contractAddress := some ca,
                       contractOwner := some o, hasEthereum := true } chain =
        { error := some "Only the contract owner can withdraw funds",
          signerRequested := false, txSubmitted := none, balanceRefreshed := false,
          onWithdrawCalls := [] }) := by
  constructor
  · simp [isOwner, strTruthy, hx, ho]
  · intro h
    simp [handleWithdraw, strTruthy, hca, h]

/-- Witness for `withdrawButton_owner_gate`: `"0xAb"` is recognized as
owner `"0xaB"` up to case, and the mismatching owner `"0xCC"` makes the
handler refuse with the authorization error. -/
theorem withdrawButton_owner_gate_witness :
    ((isOwner { isConnected := true, address := some "0xAb", contractAddress := some "0xc",
                contractOwner := some "0xaB", hasEthereum := true } = true ↔
       jsToLower "0xAb" = jsToLower "0xaB") ∧
     (isOwner { isConnected := true, address := some "0xAb", contractAddress := some "0xc",
                contractOwner := some "0xaB", hasEthereum := true } = false →
       handleWithdraw { isConnected := true, address := some "0xAb",
                        contractAddress := some "0xc", contractOwner := some "0xaB",
                        hasEthereum := true }
           { getSigner := .ok (), contractBalance := .ok 3,
             sendTx := .ok "0xh", waitTx := .ok () } =
         { error := some "Only the contract owner can withdraw funds",
           signerRequested := false, txSubmitted := none, balanceRefreshed := false,
           onWithdrawCalls := [] })) ∧
    ((isOwner { isConnected := true, address := some "0xAb", contractAddress := some "0xc",
                contractOwner := some "0xCC", hasEthereum := true } = true ↔
       jsToLower "0xAb" = jsToLower "0xCC") ∧
     (isOwner { isConnected := true, address := some "0xAb", contractAddress := some "0xc",
                contractOwner := some "0xCC", hasEthereum := true } = false →
       handleWithdraw { isConnected := true, address := some "0xAb",
                        contractAddress := some "0xc", contractOwner := some "0xCC",
                        hasEthereum := true }
           { getSigner := .ok (), contractBalance := .ok 3,
             sendTx := .ok "0xh", waitTx := .ok () } =
         { error := some "Only the contract owner can withdraw funds",
           signerRequested := false, txSubmitted := none, balanceRefreshed := false,
           onWithdrawCalls := [] })) :=
  ⟨withdrawButton_owner_gate "0xAb" "0xaB" "0xc" (by decide) (by decide) (by decide)
      { getSigner := .ok (), contractBalance := .ok 3, sendTx := .ok "0xh", waitTx := .ok () },
   withdrawButton_owner_gate "0xAb" "0xCC" "0xc" (by decide) (by decide) (by decide)
      { getSigner := .ok (), contractBalance := .ok 3, sendTx := .ok "0xh", waitTx := .ok () }⟩

/-- C5: when the owner invokes the handler and the queried contract
balance is zero, the handler reports "No funds available to withdraw"
and returns: the outcome is the same for every possible
`sendTransaction` / `wait` oracle, no transaction is submitted, no
balance refresh happens and no callback fires. -/
theorem withdrawButton_zero_balance (x ca : String) (hx : x ≠ "") (hca : ca ≠ "")
    (sendTx : Except String String) (waitTx : Except String Unit) :
    handleWithdraw { isConnected := true, address := some x, contractAddress := some ca,
                     contractOwner := some x, hasEthereum := true }
        { getSigner := .ok (), contractBalance := .ok 0,
          sendTx := sendTx, waitTx := waitTx } =
      { error := some "No funds available to withdraw", signerRequested := true,
        txSubmitted := none, balanceRefreshed := false, onWithdrawCalls := [] } := by
  simp [handleWithdraw, isOwner, strTruthy, hx, hca]

/-- Witness for `withdrawButton_zero_balance` with oracles that would
accept a transaction if one were ever submitted. -/
theorem withdrawButton_zero_balance_witness :
    handleWithdraw { isConnected := true, address := some "0xA", contractAddress := some "0xc",
                     contractOwner := some "0xA", hasEthereum := true }
        { getSigner := .ok (), contractBalance := .ok 0,
          sendTx := .ok "0xh", waitTx := .ok () } =
      { error := some "No funds available to withdraw", signerRequested := true,
        txSubmitted := none, balanceRefreshed := false, onWithdrawCalls := [] } :=
  withdrawButton_zero_balance "0xA" "0xc" (by decide) (by decide) (.ok "0xh") (.ok ())

/-- C10: whenever the handler reaches the zero-balance branch (signer
obtained, queried balance zero), `onWithdraw` is not invoked at all and
nothing is submitted; and in every run of the handler the callback
trace is either empty, or a single `(false, none)` accompanying a
recorded error, or a single `(true, some h)` for a transaction `h` that
was submitted and confirmed. -/
theorem withdrawButton_callback_discipline (env : WithdrawEnv) (chain : WithdrawChain) :
    (chain.getSigner = .ok () → chain.contractBalance = .ok 0 →
      (handleWithdraw env chain).onWithdrawCalls = [] ∧
      (handleWithdraw env chain).txSubmitted = none) ∧
    ((handleWithdraw env chain).onWithdrawCalls = [] ∨
      ((handleWithdraw env chain).onWithdrawCalls = [(false, none)] ∧
        (handleWithdraw env chain).error ≠ none) ∨
      (∃ h, (handleWithdraw env chain).onWithdrawCalls = [(true, some h)] ∧
        chain.sendTx = .ok h ∧ chain.waitTx = .ok () ∧
        (handleWithdraw env chain).txSubmitted = some h)) := by
  obtain ⟨gs, cb, stx, wtx⟩ := chain
  unfold handleWithdraw
  rcases gs with e1 | u1 <;> rcases cb with e2 | (_ | bn) <;>
    rcases stx with e3 | h3 <;> rcases wtx with e4 | u4 <;>
    cases hc1 : (!env.isConnected || !strTruthy env.contractAddress || !env.hasEthereum) <;>
    cases hc2 : (!isOwner env) <;>
    simp [hc1, hc2]

/-- Witness for `withdrawButton_callback_discipline` on an owner
session with a zero-balance oracle. -/
theorem withdrawButton_callback_discipline_witness :
    (handleWithdraw
        { isConnected := true, address := some "0xA", contractAddress := some "0xc",
          contractOwner := some "0xA", hasEthereum := true }
        { getSigner := .ok (), contractBalance := .ok 0,
          sendTx := .ok "0xh", waitTx := .ok () }).onWithdrawCalls = [] ∧
    (handleWithdraw
        { isConnected := true, address := some "0xA", contractAddress := some "0xc",
          contractOwner := some "0xA", hasEthereum := true }
        { getSigner := .ok (), contractBalance := .ok 0,
          sendTx := .ok "0xh", waitTx := .ok () }).txSubmitted = none :=
  (withdrawButton_callback_discipline
      { isConnected := true, address := some "0xA", contractAddress := some "0xc",
        contractOwner := some "0xA", hasEthereum := true }
      { getSigner := .ok (), contractBalance := .ok 0,
        sendTx := .ok "0xh", waitTx := .ok () }).1 rfl rfl

/-! ## Claims about the tip submission flow -/

/-- C2 (divergence): `parseFloat("abc")` is `NaN`, `NaN <= 0` is false,
so the non-numeric amount `"abc"` is NOT rejected by the validation
guard: on a connected session the flow proceeds into the try-block and
requests the signer — a wallet call — for every oracle behaviour,
instead of setting the local validation error and returning first. -/
theorem tipForm_nonnumeric_bypasses_guard (chain : TipChain) :
    jsParseFloat "abc" = none ∧
    amountGuardRejects "abc" = false ∧
    (handleSubmit { isConnected := true, contractAddress := some "0x12", hasEthereum := true }
        "abc" "gm" chain).signerRequested = true := by
  refine ⟨rfl, rfl, ?_⟩
  obtain ⟨gs, stx, wtx⟩ := chain
  unfold handleSubmit
  rcases gs with e1 | u1 <;> rcases stx with e2 | h2 <;> rcases wtx with e3 | u3 <;>
    simp [strTruthy, show amountGuardRejects "abc" = false from rfl,
      show parseEtherWei "abc" = none from rfl]

/-- C2 (guarded side): the guard does reject the empty string and every
amount whose parsed value is at most zero, with the local validation
error and no effect of any kind. -/
theorem tipForm_guard_rejects_nonpositive (amount message : String) (q : Rat)
    (chain : TipChain)
    (h : amount = "" ∨ (jsParseFloat amount = some q ∧ q ≤ 0)) :
    handleSubmit { isConnected := true, contractAddress := some "0x12", hasEthereum := true }
        amount message chain =
      { error := some "Please enter a valid tip amount", amount := amount,
        message := message, signerRequested := false, txSubmitted := none,
        balanceRefreshed := false, events := [] } := by
  have hguard : amountGuardRejects amount = true := by
    rcases h with h | ⟨h1, h2⟩
    · exact (amountGuardRejects_iff amount).mpr (Or.inl h)
    · exact (amountGuardRejects_iff amount).mpr (Or.inr ⟨q, h1, h2⟩)
  unfold handleSubmit
  simp [strTruthy, hguard]

/-- Witness for `tipForm_guard_rejects_nonpositive` at amount `"-3"`. -/
theorem tipForm_guard_rejects_nonpositive_witness :
    handleSubmit { isConnected := true, contractAddress := some "0x12", hasEthereum := true }
        "-3" "gm" { getSigner := .ok (), sendTx := .ok "0xh", waitTx := .ok () } =
      { error := some "Please enter a valid tip amount", amount := "-3",
        message := "gm", signerRequested := false, txSubmitted := none,
        balanceRefreshed := false, events := [] } :=
  tipForm_guard_rejects_nonpositive "-3" "gm" (JsNumParts.val ⟨true, 3, 0⟩)
    { getSigner := .ok (), sendTx := .ok "0xh", waitTx := .ok () }
    (Or.inr ⟨rfl, by norm_num [JsNumParts.val]⟩)

/-- C6: a tip submission that passes validation, is accepted by the
wallet and confirmed by the network emits the pending record carrying
the transaction hash and then the same record (same amount, message and
hash) with status success, refreshes the session balance, and resets
both input fields to the empty string. -/
theorem tipForm_success_path (ca amount message h : String) (w : Int)
    (hca : ca ≠ "") (hguard : amountGuardRejects amount = false)
    (hparse : parseEtherWei amount = some w) :
    handleSubmit { isConnected := true, contractAddress := some ca, hasEthereum := true }
        amount message { getSigner := .ok (), sendTx := .ok h, waitTx := .ok () } =
      { error := none, amount := "", message := "", signerRequested := true,
        txSubmitted := some h, balanceRefreshed := true,
        events :=
          [{ amount := amount, message := message, hash := some h, status := .pending },
           { amount := amount, message := message, hash := some h, status := .success }] } := by
  unfold handleSubmit
  simp [strTruthy, hca, hguard, hparse]

/-- Witness for `tipForm_success_path`: the spec scenario, amount
`"0.01"`, message `"gg"`. -/
theorem tipForm_success_path_witness :
    handleSubmit { isConnected := true, contractAddress := some "0xc", hasEthereum := true }
        "0.01" "gg" { getSigner := .ok (), sendTx := .ok "0xhash", waitTx := .ok () } =
      { error := none, amount := "", message := "", signerRequested := true,
        txSubmitted := some "0xhash", balanceRefreshed := true,
        events :=
          [{ amount := "0.01", message := "gg", hash := some "0xhash", status := .pending },
           { amount := "0.01", message := "gg", hash := some "0xhash", status := .success }] } :=
  tipForm_success_path "0xc" "0.01" "gg" "0xhash" 10000000000000000
    (by decide) (by decide) (by decide)

/-- C7: a tip submission that fails at submission, or at confirmation
after the pending emission, ends with a status-error record emitted,
the failure message surfaced in the local error, and the amount and
message fields left unchanged for retry. -/
theorem tipForm_failure_preserves_input (ca amount message h e : String) (w : Int)
    (hca : ca ≠ "") (hguard : amountGuardRejects amount = false)
    (hparse : parseEtherWei amount = some w) (waitTx : Except String Unit) :
    (handleSubmit { isConnected := true, contractAddress := some ca, hasEthereum := true }
        amount message { getSigner := .ok (), sendTx := .error e, waitTx := waitTx } =
      { error := some e, amount := amount, message := message, signerRequested := true,
        txSubmitted := none, balanceRefreshed := false,
        events := [{ amount := amount, message := message, hash := none,
                     status := .error }] }) ∧
    (handleSubmit { isConnected := true, contractAddress := some ca, hasEthereum := true }
        amount message { getSigner := .ok (), sendTx := .ok h, waitTx := .error e } =
      { error := some e, amount := amount, message := message, signerRequested := true,
        txSubmitted := some h, balanceRefreshed := false,
        events :=
          [{ amount := amount, message := message, hash := some h, status := .pending },
           { amount := amount, message := message, hash := none, status := .error }] }) := by
  unfold handleSubmit
  constructor <;> simp [strTruthy, hca, hguard, hparse]

/-- Witness for `tipForm_failure_preserves_input`: a user-rejected
submission and a failed confirmation for amount `"0.01"`. -/
theorem tipForm_failure_preserves_input_witness :
    (handleSubmit { isConnected := true, contractAddress := some "0xc", hasEthereum := true }
        "0.01" "gg" { getSigner := .ok (), sendTx := .error "user rejected",
                      waitTx := .ok () } =
      { error := some "user rejected", amount := "0.01", message := "gg",
        signerRequested := true, txSubmitted := none, balanceRefreshed := false,
        events := [{ amount := "0.01", message := "gg", hash := none,
                     status := .error }] }) ∧
    (handleSubmit { isConnected := true, contractAddress := some "0xc", hasEthereum := true }
        "0.01" "gg" { getSigner := .ok (), sendTx := .ok "0xhash",
                      waitTx := .error "user rejected" } =
      { error := some "user rejected", amount := "0.01", message := "gg",
        signerRequested := true, txSubmitted := some "0xhash", balanceRefreshed := false,
        events :=
          [{ amount := "0.01", message := "gg", hash := some "0xhash", status := .pending },
           { amount := "0.01", message := "gg", hash := none, status := .error }] }) :=
  tipForm_failure_preserves_input "0xc" "0.01" "gg" "0xhash" "user rejected"
    10000000000000000 (by decide) (by decide) (by decide) (.ok ())

/-- Witness for `tipForm_nonnumeric_bypasses_guard` with an
all-accepting oracle. -/
theorem tipForm_nonnumeric_bypasses_guard_witness :
    jsParseFloat "abc" = none ∧
    amountGuardRejects "abc" = false ∧
    (handleSubmit { isConnected := true, contractAddress := some "0x12", hasEthereum := true }
        "abc" "gm"
        { getSigner := .ok (), sendTx := .ok "0xh", waitTx := .ok () }).signerRequested =
      true :=
  tipForm_nonnumeric_bypasses_guard
    { getSigner := .ok (), sendTx := .ok "0xh", waitTx := .ok () }

/-- Witness for `accountsChanged_empty_disconnects` on a connected
session. -/
theorem accountsChanged_empty_disconnects_witness :
    onAccountsChanged { isClient := true, hasEthereum := true }
        { ethAccounts := .ok [], getBalance := fun _ => .ok 5 } []
        { address := some "0xa", isConnected := true, balance := "1.0", isLoading := false } =
      disconnectWallet ∧
    disconnectWallet =
      { address := none, isConnected := false, balance := "0", isLoading := false } ∧
    onAccountsChanged { isClient := true, hasEthereum := true }
        { ethAccounts := .ok [], getBalance := fun _ => .ok 5 } ["0xb"]
        { address := some "0xa", isConnected := true, balance := "1.0", isLoading := false } =
      checkIfWalletIsConnected { isClient := true, hasEthereum := true }
        { ethAccounts := .ok [], getBalance := fun _ => .ok 5 }
        { address := some "0xa", isConnected := true, balance := "1.0", isLoading := false } :=
  accountsChanged_empty_disconnects { isClient := true, hasEthereum := true }
    { ethAccounts := .ok [], getBalance := fun _ => .ok 5 }
    { address := some "0xa", isConnected := true, balance := "1.0", isLoading := false }
    "0xb" []
